import Mathlib

/-!
Shallow embedding of the ID-card template rendering engine
(`src/app/engine`): the JS value model used by the binding resolver,
the binding/condition pipeline (`bindingResolver.ts`), the layer/order
compositor (`layerManager.ts`), the resize gesture computation
(`useElementInteraction.ts`), and the document/selection reducers of the
template context module, together with proofs about them.

Numbers are modelled as rationals (JS numbers are IEEE doubles; none of
the verified properties depend on rounding of non-integral values) and
paint-order integers (`zIndex`, `Layer.order`) as integers.
-/

-- ═════════════════════════════════════════════════
--  JS value model
-- ═════════════════════════════════════════════════

/-- A JavaScript runtime value as it flows through the binding resolver:
`undefined`, `null`, booleans, numbers, strings, plain objects
(insertion-ordered key/value lists with unique keys) and arrays. -/
inductive JSVal : Type where
  | undefinedV : JSVal
  | null : JSVal
  | bool (b : Bool) : JSVal
  | num (q : ℚ) : JSVal
  | str (s : String) : JSVal
  | obj (fields : List (String × JSVal)) : JSVal
  | arr (items : List JSVal) : JSVal

/-- The `DataContext` interface: an arbitrary string-keyed object
(`{ [key: string]: any }`) supplied by the caller at render time. -/
def DataContext : Type := List (String × JSVal)

/-- JS strict equality `===`. Primitives compare by value; two object or
array values taken from different sources are distinct references and
compare unequal, which is how `===` behaves on the literal comparison
values the engine uses. -/
def jsStrictEq : JSVal → JSVal → Bool
  | .undefinedV, .undefinedV => true
  | .null, .null => true
  | .bool a, .bool b => a == b
  | .num a, .num b => a == b
  | .str a, .str b => a == b
  | _, _ => false

/-- Decimal rendering of a JS number. Integral values render as in JS
(`String(42) = "42"`, `String(-3) = "-3"`); non-integral values use a
fraction form, a deliberate approximation — every verified property
stringifies only integral numbers or strings. -/
def ratToString (q : ℚ) : String :=
  if q.den = 1 then toString q.num
  else toString q.num ++ "/" ++ toString q.den

/-- Both-ends whitespace trim on a character list (JS `String.trim`). -/
def trimChars (cs : List Char) : List Char :=
  ((cs.dropWhile Char.isWhitespace).reverse.dropWhile Char.isWhitespace).reverse

/-- `String.prototype.split` with a one-character separator (the only
form the engine uses: splitting dot-paths), written as structural
recursion so concrete instances evaluate inside proofs. -/
def splitOnCharAux (sep : Char) : List Char → List Char → List String
  | [], acc => [String.mk acc.reverse]
  | c :: rest, acc =>
    if c = sep then String.mk acc.reverse :: splitOnCharAux sep rest []
    else splitOnCharAux sep rest (c :: acc)

/-- Split a character list on a separator character. -/
def splitOnChar (sep : Char) (cs : List Char) : List String :=
  splitOnCharAux sep cs []

/-- Substring search on character lists. -/
def jsIncludesL : List Char → List Char → Bool
  | [], _ => false
  | c :: rest, sub => sub.isPrefixOf (c :: rest) || jsIncludesL rest sub

/-- Global, non-overlapping, left-to-right replacement
(`String.prototype.replace` with a global literal pattern). The fuel
argument bounds the loop by the subject length, which suffices because
every step consumes at least one character of a non-empty pattern. -/
def replaceAllAux (pat repl : List Char) : ℕ → List Char → List Char
  | 0, cs => cs
  | fuel + 1, cs =>
    match cs with
    | [] => []
    | c :: rest =>
      if pat.isPrefixOf (c :: rest) then
        repl ++ replaceAllAux pat repl fuel (List.drop (pat.length - 1) rest)
      else c :: replaceAllAux pat repl fuel rest

/-- `s.replace(/pat/g, repl)` for a non-empty literal pattern. -/
def jsReplaceAll (s pat repl : String) : String :=
  if pat = "" then s
  else String.mk (replaceAllAux pat.data repl.data s.data.length s.data)

mutual

/-- JS `String(value)` with an array-element flag: inside an array,
`null` and `undefined` render as the empty string (JS `Array.toString`
semantics). -/
def jsToStringAux : Bool → JSVal → String
  | inArr, .undefinedV => if inArr then "" else "undefined"
  | inArr, .null => if inArr then "" else "null"
  | _, .bool b => if b then "true" else "false"
  | _, .num q => ratToString q
  | _, .str s => s
  | _, .obj _ => "[object Object]"
  | _, .arr items => jsListToString items

/-- JS `Array.prototype.toString`: elements joined with commas. -/
def jsListToString : List JSVal → String
  | [] => ""
  | [v] => jsToStringAux true v
  | v :: w :: rest => jsToStringAux true v ++ "," ++ jsListToString (w :: rest)

end

/-- JS `String(value)`. -/
def jsToString : JSVal → String := jsToStringAux false

/-- Parse a run of decimal digits; `none` if empty or non-digit. -/
def parseDigits (cs : List Char) : Option ℕ :=
  if cs ≠ [] ∧ cs.all Char.isDigit then
    some (cs.foldl (fun a c => a * 10 + (c.toNat - 48)) 0)
  else none

/-- JS `Number(string)` on the decimal subset of JS numeric literals:
optional sign, optional fraction part, whitespace trimmed, `Number("")
= 0`. Exponent and radix forms are out of scope and conservatively
treated as `NaN` (`none`); no verified property uses them. -/
def jsStringToNumber (s : String) : Option ℚ :=
  let t := String.mk (trimChars s.data)
  if t = "" then some 0
  else
    let signBody : ℚ × List Char :=
      match t.data with
      | '-' :: rest => (-1, rest)
      | '+' :: rest => (1, rest)
      | cs => (1, cs)
    match splitOnChar '.' signBody.2 with
    | [intPart] => (parseDigits intPart.data).map (fun n => signBody.1 * n)
    | [intPart, fracPart] =>
      if intPart = "" ∧ fracPart = "" then none
      else
        let ip : Option ℕ := if intPart = "" then some 0 else parseDigits intPart.data
        let fp : Option (ℕ × ℕ) :=
          if fracPart = "" then some (0, 0)
          else (parseDigits fracPart.data).map (fun n => (n, fracPart.length))
        match ip, fp with
        | some i, some fd => some (signBody.1 * ((i : ℚ) + (fd.1 : ℚ) / (10 : ℚ) ^ fd.2))
        | _, _ => none
    | _ => none

/-- JS `Number(value)` coercion; `none` models `NaN`. -/
def jsToNumber : JSVal → Option ℚ
  | .num q => some q
  | .str s => jsStringToNumber s
  | .bool b => some (if b then 1 else 0)
  | .null => some 0
  | .undefinedV => none
  | .obj _ => none
  | .arr items => jsStringToNumber (jsListToString items)

/-- JS `String.prototype.includes`: substring containment.
The empty string is contained in everything. -/
def jsIncludes (s sub : String) : Bool :=
  if sub = "" then true else jsIncludesL s.data sub.data

/-- One step of JS bracket access `value[key]` as the dot-path walker
uses it: object key lookup, canonical array indices, `undefined`
everywhere else. -/
def getMember : JSVal → String → JSVal
  | .obj fields, key => (fields.lookup key).getD .undefinedV
  | .arr items, key =>
    match key.toNat? with
    | some i => if toString i = key then (items.get? i).getD .undefinedV else .undefinedV
    | none => .undefinedV
  | _, _ => .undefinedV

/-- The reduce step of `getNestedValue`: a `null` or `undefined`
accumulator short-circuits to `undefined`, anything else takes the
member. -/
def walkStep (acc : JSVal) (key : String) : JSVal :=
  match acc with
  | .undefinedV => .undefinedV
  | .null => .undefinedV
  | v => getMember v key

/-- `getNestedValue(obj, path)` continued: guard the empty path, then
reduce the split path with `walkStep`. -/
def getNestedValue (objv : JSVal) (path : String) : JSVal :=
  if path = "" then .undefinedV
  else (splitOnChar '.' path.data).foldl walkStep objv

-- ═════════════════════════════════════════════════
--  Binding resolver (bindingResolver.ts)
-- ═════════════════════════════════════════════════

/-- `DataBinding` from the type system: dot-path field, optional
transform name, optional fallback literal, optional format template. -/
structure DataBinding where
  field : String
  transform : Option String := none
  fallback : Option String := none
  formatTemplate : Option String := none

/-- The process-wide transform registry (`Map<string, TransformFn>`),
abstracted as the lookup function it induces. -/
def TransformReg : Type := String → Option (JSVal → DataContext → JSVal)

/-- The empty transform registry. -/
def emptyReg : TransformReg := fun _ => none

/-- JS truthiness of an optional string field: `undefined` and the empty
string are falsy. -/
def optStrTruthy : Option String → Bool
  | some s => s ≠ ""
  | none => false

/-- `value === undefined || value === null || value === ''` — the
emptiness test of steps 2 of `resolveBinding` and of
`exists`/`notExists`. -/
def isEmptyish : JSVal → Bool
  | .undefinedV => true
  | .null => true
  | .str s => s = ""
  | _ => false

/-- `resolveBinding(binding, data)`: (1) walk the dot-path, (2) apply
the fallback if the value is empty, (3) apply a registered transform
when the binding's transform name is truthy, (4) interpolate into the
format template when one is present. -/
def resolveBinding (transforms : TransformReg) (binding : DataBinding)
    (data : DataContext) : JSVal :=
  let value := getNestedValue (JSVal.obj data) binding.field
  let value := if isEmptyish value then JSVal.str (binding.fallback.getD "") else value
  let value :=
    if optStrTruthy binding.transform then
      match transforms (binding.transform.getD "") with
      | some fn => fn value data
      | none => value
    else value
  if optStrTruthy binding.formatTemplate then
    JSVal.str (jsReplaceAll (binding.formatTemplate.getD "")
      "\x7b\x7bvalue\x7d\x7d" (jsToString value))
  else value

/-- `ConditionalVisibility`: field path, operator and optional
comparison value. The operator is carried as its runtime string, so the
reducer's `default` branch (unknown operator) is expressible; an absent
comparison value reads as `undefined`. -/
structure ConditionalVisibility where
  field : String
  operator : String
  value : JSVal := .undefinedV

/-- `evaluateCondition(condition, data)` from `bindingResolver.ts`. -/
def evaluateCondition (condition : ConditionalVisibility) (data : DataContext) : Bool :=
  let value := getNestedValue (JSVal.obj data) condition.field
  match condition.operator with
  | "exists" => !isEmptyish value
  | "notExists" => isEmptyish value
  | "equals" => jsStrictEq value condition.value
  | "notEquals" => !jsStrictEq value condition.value
  | "gt" =>
    match jsToNumber value, jsToNumber condition.value with
    | some a, some b => decide (a > b)
    | _, _ => false
  | "lt" =>
    match jsToNumber value, jsToNumber condition.value with
    | some a, some b => decide (a < b)
    | _, _ => false
  | "contains" => jsIncludes (jsToString value) (jsToString condition.value)
  | _ => true

-- ═════════════════════════════════════════════════
--  Data model (engine type system)
-- ═════════════════════════════════════════════════

/-- `Position.anchor` literal union. -/
inductive Anchor : Type where
  | topLeft | center | topCenter

/-- Element `Position`. -/
structure Position where
  x : ℚ
  y : ℚ
  anchor : Option Anchor := none

/-- Element `Dimensions`. -/
structure Dimensions where
  width : ℚ
  height : ℚ
  minWidth : Option ℚ := none
  minHeight : Option ℚ := none
  maxWidth : Option ℚ := none
  maxHeight : Option ℚ := none
  aspectLock : Option Bool := none

/-- `Layer`: grouping bucket with visibility, lock, opacity and paint
order (`order` is the integer paint-priority bucket). -/
structure Layer where
  id : String
  name : String
  visible : Bool
  locked : Bool
  opacity : ℚ
  order : ℤ

/-- The closed set of element type tags. -/
inductive ElementType : Type where
  | text | image | shape | logo | qrcode | barcode | container | divider

/-- `TemplateMeta.side` literal union. -/
inductive DocSide : Type where
  | front | back | single

/-- Human metadata of a document. -/
structure TemplateMeta where
  name : String
  description : String
  category : String
  tags : List String
  author : String
  createdAt : String
  updatedAt : String
  side : DocSide

/-- `CanvasSettings.unit` literal union. -/
inductive CanvasUnit : Type where
  | px | mm | inch

/-- `CanvasSettings.layoutMode` literal union. -/
inductive LayoutMode : Type where
  | absolute | grid | flex

/-- Canvas / artboard settings. -/
structure CanvasSettings where
  width : ℚ
  height : ℚ
  unit : CanvasUnit
  dpi : ℚ
  layoutMode : LayoutMode
  gridSize : ℚ
  snapToGrid : Bool

/-- `BackgroundSettings.type` literal union. -/
inductive BackgroundType : Type where
  | solid | gradient | image | pattern

/-- Gradient definition. -/
structure GradientDef where
  isRadial : Bool
  angle : ℚ
  stops : List (String × ℚ)

/-- Repeating-pattern definition. -/
structure PatternDef where
  kind : String
  size : ℚ
  color : String
  opacity : ℚ
  svgData : Option String := none

/-- Background fill settings. -/
structure BackgroundSettings where
  bgType : BackgroundType
  color : String
  gradient : Option GradientDef := none
  imageUrl : Option String := none
  pattern : Option PatternDef := none
  opacity : ℚ

/-- A template-level variable. -/
structure TemplateVariable where
  name : String
  varType : String
  value : JSVal
  label : String
  description : Option String := none

/-- `TemplateElement`. The type-specific `props` object and the
`style` descriptor are string-keyed JS objects (the binding applicator
writes computed keys into both), `zIndex` is the integer paint-order
key. -/
structure TemplateElement where
  id : String
  elType : ElementType
  name : String
  layerId : String
  position : Position
  dimensions : Dimensions
  rotation : ℚ
  zIndex : ℤ
  style : List (String × JSVal)
  opacity : ℚ
  visible : Bool
  bindings : Option (List (String × DataBinding)) := none
  condition : Option ConditionalVisibility := none
  locked : Bool
  selectable : Bool
  props : List (String × JSVal)
  parentId : Option String := none
  children : Option (List String) := none

/-- The root `TemplateDocument` aggregate. -/
structure TemplateDocument where
  schemaVersion : ℤ
  id : String
  meta : TemplateMeta
  canvas : CanvasSettings
  background : BackgroundSettings
  layers : List Layer
  elements : List TemplateElement
  bindings : List (String × DataBinding)
  variables' : List TemplateVariable
  isReady : Bool

/-- `Partial<TemplateElement>` as used by `UPDATE_ELEMENT`: `none`
means the key is absent from the partial object; for fields that are
themselves optional on the element, `some none` means the key is
present with value `undefined`. -/
structure ElementChanges where
  id : Option String := none
  elType : Option ElementType := none
  name : Option String := none
  layerId : Option String := none
  position : Option Position := none
  dimensions : Option Dimensions := none
  rotation : Option ℚ := none
  zIndex : Option ℤ := none
  style : Option (List (String × JSVal)) := none
  opacity : Option ℚ := none
  visible : Option Bool := none
  bindings : Option (Option (List (String × DataBinding))) := none
  condition : Option (Option ConditionalVisibility) := none
  locked : Option Bool := none
  selectable : Option Bool := none
  props : Option (List (String × JSVal)) := none
  parentId : Option (Option String) := none
  children : Option (Option (List String)) := none

/-- The spread merge `{ ...el, ...changes }`. -/
def applyElementChanges (el : TemplateElement) (c : ElementChanges) : TemplateElement where
  id := c.id.getD el.id
  elType := c.elType.getD el.elType
  name := c.name.getD el.name
  layerId := c.layerId.getD el.layerId
  position := c.position.getD el.position
  dimensions := c.dimensions.getD el.dimensions
  rotation := c.rotation.getD el.rotation
  zIndex := c.zIndex.getD el.zIndex
  style := c.style.getD el.style
  opacity := c.opacity.getD el.opacity
  visible := c.visible.getD el.visible
  bindings := c.bindings.getD el.bindings
  condition := c.condition.getD el.condition
  locked := c.locked.getD el.locked
  selectable := c.selectable.getD el.selectable
  props := c.props.getD el.props
  parentId := c.parentId.getD el.parentId
  children := c.children.getD el.children

/-- `Partial<BackgroundSettings>` for `SET_BACKGROUND`. -/
structure BackgroundChanges where
  bgType : Option BackgroundType := none
  color : Option String := none
  gradient : Option (Option GradientDef) := none
  imageUrl : Option (Option String) := none
  pattern : Option (Option PatternDef) := none
  opacity : Option ℚ := none

/-- The spread merge `{ ...doc.background, ...action.payload }`. -/
def applyBackgroundChanges (bg : BackgroundSettings) (c : BackgroundChanges) :
    BackgroundSettings where
  bgType := c.bgType.getD bg.bgType
  color := c.color.getD bg.color
  gradient := c.gradient.getD bg.gradient
  imageUrl := c.imageUrl.getD bg.imageUrl
  pattern := c.pattern.getD bg.pattern
  opacity := c.opacity.getD bg.opacity

/-- `Partial<Layer>` for `UPDATE_LAYER`. -/
structure LayerChanges where
  id : Option String := none
  name : Option String := none
  visible : Option Bool := none
  locked : Option Bool := none
  opacity : Option ℚ := none
  order : Option ℤ := none

/-- The spread merge `{ ...l, ...changes }`. -/
def applyLayerChanges (l : Layer) (c : LayerChanges) : Layer where
  id := c.id.getD l.id
  name := c.name.getD l.name
  visible := c.visible.getD l.visible
  locked := c.locked.getD l.locked
  opacity := c.opacity.getD l.opacity
  order := c.order.getD l.order

-- ═════════════════════════════════════════════════
--  Selection / interaction state
-- ═════════════════════════════════════════════════

/-- The eight resize handles. -/
inductive ResizeHandle : Type where
  | topLeft | top | topRight | left | right | bottomLeft | bottom | bottomRight

/-- The handle's runtime string, on which the mouse-move handler calls
`String.prototype.includes`. -/
def handleName : ResizeHandle → String
  | .topLeft => "top-left"
  | .top => "top"
  | .topRight => "top-right"
  | .left => "left"
  | .right => "right"
  | .bottomLeft => "bottom-left"
  | .bottom => "bottom"
  | .bottomRight => "bottom-right"

/-- In-progress drag gesture state. -/
structure DragState where
  elementId : String
  startPosition : Position
  currentPosition : Position
  offset : ℚ × ℚ

/-- In-progress resize gesture state. -/
structure ResizeState where
  elementId : String
  handle : ResizeHandle
  startDimensions : Dimensions
  startPosition : Position
  currentDimensions : Dimensions

/-- Transient selection state (never part of undo history). -/
structure SelectionState where
  selectedIds : List String
  hoveredId : Option String
  dragState : Option DragState
  resizeState : Option ResizeState

-- ═════════════════════════════════════════════════
--  Engine actions and reducers (template context module)
-- ═════════════════════════════════════════════════

/-- The closed `EngineAction` vocabulary. -/
inductive EngineAction : Type where
  | setDocument (payload : TemplateDocument)
  | updateElement (id : String) (changes : ElementChanges)
  | moveElement (id : String) (position : Position)
  | resizeElement (id : String) (dimensions : Dimensions) (position : Option Position)
  | addElement (payload : TemplateElement)
  | removeElement (id : String)
  | duplicateElement (id : String)
  | reorderElement (id : String) (zIndex : ℤ)
  | setBackground (changes : BackgroundChanges)
  | updateLayer (id : String) (changes : LayerChanges)
  | selectElements (ids : List String)
  | hoverElement (id : Option String)
  | startDrag (payload : DragState)
  | updateDrag (payload : Position)
  | endDrag
  | startResize (payload : ResizeState)
  | updateResize (payload : Dimensions)
  | endResize
  | undo
  | redo
  | setVariable (name : String) (value : JSVal)
  | batch (payload : List EngineAction)

/-- Document slice of the reducer state: current document plus the
undo (`history`) and redo (`future`) snapshot stacks. -/
structure DocumentState where
  document : TemplateDocument
  history : List TemplateDocument
  future : List TemplateDocument

/-- JS `array.slice(-n)`: the last `min n length` elements. -/
def jsSliceLast (n : ℕ) (l : List α) : List α := l.drop (l.length - n)

/-- `pushHistory(state, newDoc)`: install the new document, append the
pre-change document to the last `MAX_HISTORY = 50` history entries, and
clear the redo stack. -/
def pushHistory (state : DocumentState) (newDoc : TemplateDocument) : DocumentState where
  document := newDoc
  history := jsSliceLast 50 state.history ++ [state.document]
  future := []

/-- `Date.now()`, modelled as a fixed value: the duplicate-id suffix it
produces never influences a verified property. -/
def dateNow : ℕ := 0

mutual

/-- `documentReducer(state, action)` from the template context module. -/
def documentReducer (state : DocumentState) : EngineAction → DocumentState
  | .setDocument payload => { document := payload, history := [], future := [] }
  | .updateElement id changes =>
    pushHistory state
      { state.document with
        elements := state.document.elements.map
          (fun el => if el.id = id then applyElementChanges el changes else el) }
  | .moveElement id position =>
    pushHistory state
      { state.document with
        elements := state.document.elements.map
          (fun el => if el.id = id then { el with position := position } else el) }
  | .resizeElement id dimensions position =>
    pushHistory state
      { state.document with
        elements := state.document.elements.map
          (fun el =>
            if el.id = id then
              match position with
              | some p => { el with dimensions := dimensions, position := p }
              | none => { el with dimensions := dimensions }
            else el) }
  | .addElement payload =>
    pushHistory state
      { state.document with elements := state.document.elements ++ [payload] }
  | .removeElement id =>
    pushHistory state
      { state.document with
        elements := state.document.elements.filter (fun el => el.id ≠ id) }
  | .duplicateElement id =>
    match state.document.elements.find? (fun el => el.id = id) with
    | none => state
    | some original =>
      let copy : TemplateElement :=
        { original with
          id := original.id ++ "_copy_" ++ toString dateNow
          name := original.name ++ " (copy)"
          position := { original.position with
                        x := original.position.x + 10
                        y := original.position.y + 10 } }
      pushHistory state
        { state.document with elements := state.document.elements ++ [copy] }
  | .reorderElement id zIndex =>
    pushHistory state
      { state.document with
        elements := state.document.elements.map
          (fun el => if el.id = id then { el with zIndex := zIndex } else el) }
  | .setBackground changes =>
    pushHistory state
      { state.document with
        background := applyBackgroundChanges state.document.background changes }
  | .updateLayer id changes =>
    pushHistory state
      { state.document with
        layers := state.document.layers.map
          (fun l => if l.id = id then applyLayerChanges l changes else l) }
  | .setVariable name value =>
    pushHistory state
      { state.document with
        variables' := state.document.variables'.map
          (fun v => if v.name = name then { v with value := value } else v) }
  | .undo =>
    match state.history.getLast? with
    | none => state
    | some prev =>
      { document := prev
        history := state.history.dropLast
        future := state.document :: state.future }
  | .redo =>
    match state.future with
    | [] => state
    | next :: rest =>
      { document := next
        history := state.history ++ [state.document]
        future := rest }
  | .batch payload => documentReducerBatch state payload
  | _ => state

/-- The `BATCH` loop: fold the constituent actions through the reducer. -/
def documentReducerBatch (state : DocumentState) : List EngineAction → DocumentState
  | [] => state
  | a :: rest => documentReducerBatch (documentReducer state a) rest

end

/-- `selectionReducer(state, action)` from the template context module. -/
def selectionReducer (state : SelectionState) : EngineAction → SelectionState
  | .selectElements ids => { state with selectedIds := ids }
  | .hoverElement id => { state with hoveredId := id }
  | .startDrag payload => { state with dragState := some payload }
  | .updateDrag payload =>
    match state.dragState with
    | none => state
    | some ds => { state with dragState := some { ds with currentPosition := payload } }
  | .endDrag => { state with dragState := none }
  | .startResize payload => { state with resizeState := some payload }
  | .updateResize payload =>
    match state.resizeState with
    | none => state
    | some rs => { state with resizeState := some { rs with currentDimensions := payload } }
  | .endResize => { state with resizeState := none }
  | _ => state

-- ═════════════════════════════════════════════════
--  Layer/order manager (layerManager.ts)
-- ═════════════════════════════════════════════════

/-- The `layerMap` built by successive `Map.set` calls: when two layers
share an id, the one set last wins. -/
def layerLookup (layers : List Layer) (id : String) : Option Layer :=
  layers.reverse.find? (fun l => l.id = id)

/-- Filter 1: drop an element only when its layer resolves and is not
visible (`!layer || layer.visible`). -/
def layerVisibleFilter (layers : List Layer) (el : TemplateElement) : Bool :=
  match layerLookup layers el.layerId with
  | none => true
  | some l => l.visible

/-- Filter 3: conditional visibility (absent condition is visible). -/
def conditionFilter (data : DataContext) (el : TemplateElement) : Bool :=
  match el.condition with
  | none => true
  | some c => evaluateCondition c data

/-- The element's resolved layer order (`layerMap.get(...)?.order ?? 0`):
an unresolvable layer reference counts as order 0. -/
def resolvedOrder (layers : List Layer) (el : TemplateElement) : ℤ :=
  match layerLookup layers el.layerId with
  | some l => l.order
  | none => 0

/-- The composite paint-order key `layer.order * 1000 + element.zIndex`. -/
def compositeKey (layers : List Layer) (el : TemplateElement) : ℤ :=
  resolvedOrder layers el * 1000 + el.zIndex

/-- `getOrderedElements(elements, layers, data)`: the three visibility
filters followed by the composite-key sort. `Array.prototype.sort` with
the numeric comparator `orderA - orderB` is a stable sort in ascending
key order, modelled by the stable `List.insertionSort` under the total
preorder `compositeKey a ≤ compositeKey b`. -/
def getOrderedElements (elements : List TemplateElement) (layers : List Layer)
    (data : DataContext) : List TemplateElement :=
  (((elements.filter (layerVisibleFilter layers)).filter
      (fun el => el.visible)).filter
      (conditionFilter data)).insertionSort
    (fun a b => compositeKey layers a ≤ compositeKey layers b)

-- ═════════════════════════════════════════════════
--  Resize gesture computation (useElementInteraction.ts)
-- ═════════════════════════════════════════════════

/-- The interactive render modes. -/
inductive RenderMode : Type where
  | preview | display | export | thumbnail

/-- `EngineConfig`. -/
structure EngineConfig where
  mode : RenderMode
  scale : ℚ
  snapToGrid : Bool
  gridSize : ℚ
  showHandles : Bool
  showGrid : Bool
  enableKeyboard : Bool
  updateDebounce : ℚ

/-- The `resizeStart` ref captured by `startResize`. -/
structure ResizeStartRef where
  handle : ResizeHandle
  mouseX : ℚ
  mouseY : ℚ
  elX : ℚ
  elY : ℚ
  elW : ℚ
  elH : ℚ
  aspectLock : Bool

/-- JS `Math.round`: round half toward positive infinity. -/
def jsRound (q : ℚ) : ℤ := ⌊q + 1 / 2⌋

/-- The grid-snap step applied to one dimension at the end of the
resize branch of `handleMouseMove`. -/
def snapDim (config : EngineConfig) (w : ℚ) : ℚ :=
  if config.snapToGrid ∧ config.gridSize > 0 then
    (jsRound (w / config.gridSize) : ℚ) * config.gridSize
  else w

/-- The resize branch of `handleMouseMove`: per-handle width/height
deltas with the `Math.max(10, _)` floor, then the aspect-lock
correction, then grid snapping; the result is the committed
`{width, height}` payload. -/
def resizeDims (rs : ResizeStartRef) (config : EngineConfig)
    (clientX clientY : ℚ) : ℚ × ℚ :=
  let dx := (clientX - rs.mouseX) / config.scale
  let dy := (clientY - rs.mouseY) / config.scale
  let w1 := if jsIncludes (handleName rs.handle) "right" then max 10 (rs.elW + dx) else rs.elW
  let w2 := if jsIncludes (handleName rs.handle) "left" then max 10 (rs.elW - dx) else w1
  let h1 := if jsIncludes (handleName rs.handle) "bottom" then max 10 (rs.elH + dy) else rs.elH
  let h2 := if jsIncludes (handleName rs.handle) "top" then max 10 (rs.elH - dy) else h1
  let wh :=
    if rs.aspectLock then
      let r0 := rs.elW / rs.elH
      if |dx| > |dy| then (w2, w2 / r0) else (h2 * r0, h2)
    else (w2, h2)
  (snapDim config wh.1, snapDim config wh.2)

-- ═════════════════════════════════════════════════
--  Binding application (bindingResolver.ts, applyBindingsToElement)
-- ═════════════════════════════════════════════════

/-- JS property assignment `target[key] = value` on a plain object:
overwrite in place when the key exists, append otherwise. -/
def setKey : List (String × JSVal) → String → JSVal → List (String × JSVal)
  | [], key, v => [(key, v)]
  | (k, w) :: rest, key, v =>
    if k = key then (key, v) :: rest else (k, w) :: setKey rest key v

/-- One iteration of the `applyBindingsToElement` loop: a two-segment
`props.<key>` path overrides `props`, a two-segment `style.<key>` path
overrides `style`, anything else is skipped. -/
def applyOneBinding (el : TemplateElement) (path : String) (v : JSVal) : TemplateElement :=
  match splitOnChar '.' path.data with
  | [p, k] =>
    if p = "props" then { el with props := setKey el.props k v }
    else if p = "style" then { el with style := setKey el.style k v }
    else el
  | _ => el

/-- `resolveElementBindings(element, data)`: every binding entry mapped
through `resolveBinding`, keyed by its prop path. -/
def resolveElementBindings (transforms : TransformReg) (element : TemplateElement)
    (data : DataContext) : List (String × JSVal) :=
  match element.bindings with
  | none => []
  | some bs => bs.map (fun pb => (pb.1, resolveBinding transforms pb.2 data))

/-- `applyBindingsToElement(element, data)`: early-out when there are no
bindings, otherwise fold the resolved entries over the element. -/
def applyBindingsToElement (transforms : TransformReg) (element : TemplateElement)
    (data : DataContext) : TemplateElement :=
  match element.bindings with
  | none => element
  | some bs =>
    if bs.length = 0 then element
    else
      (bs.map (fun pb => (pb.1, resolveBinding transforms pb.2 data))).foldl
        (fun el pv => applyOneBinding el pv.1 pv.2) element

-- ═════════════════════════════════════════════════
--  Derived notions used by the claims
-- ═════════════════════════════════════════════════

/-- An action is committed (history-pushing) in a given state exactly
when its reducer branch goes through `pushHistory`: the nine document
mutations always do, `DUPLICATE_ELEMENT` only when the id resolves. -/
def commits (state : DocumentState) : EngineAction → Bool
  | .updateElement _ _ => true
  | .moveElement _ _ => true
  | .resizeElement _ _ _ => true
  | .addElement _ => true
  | .removeElement _ => true
  | .duplicateElement id => (state.document.elements.find? (fun el => el.id = id)).isSome
  | .reorderElement _ _ => true
  | .setBackground _ => true
  | .updateLayer _ _ => true
  | .setVariable _ _ => true
  | _ => false

/-- Every action of the sequence commits in the state it is applied to. -/
def allCommit : DocumentState → List EngineAction → Bool
  | _, [] => true
  | s, a :: rest => commits s a && allCommit (documentReducer s a) rest

/-- Left fold of an action sequence through the document reducer. -/
def applyActions (s : DocumentState) (acts : List EngineAction) : DocumentState :=
  acts.foldl documentReducer s

/-- `n` successive `UNDO` dispatches. -/
def undoN (n : ℕ) (s : DocumentState) : DocumentState :=
  (fun st => documentReducer st .undo)^[n] s

-- ═════════════════════════════════════════════════
--  Spec-side restatements (for refinement comparisons)
-- ═════════════════════════════════════════════════

/-- Spec-side dot-path walker: walking the already-split path, any
missing intermediate key yields `none` ("unresolved") instead of an
exception. -/
def walkPathSpec : JSVal → List String → Option JSVal
  | v, [] => some v
  | v, key :: rest =>
    match v with
    | .obj fields =>
      match fields.lookup key with
      | some w => walkPathSpec w rest
      | none => none
    | .arr items =>
      match key.toNat? with
      | some i =>
        if toString i = key then
          match items.get? i with
          | some w => walkPathSpec w rest
          | none => none
        else none
      | none => none
    | _ => none

/-- Spec-side restatement of the resolution pipeline, written from the
spec's (a)–(d): (a) walk the dot-path with `none` for a missing key;
(b) substitute the fallback (default `""`) when unresolved or
null/undefined/empty; (c) apply the named transform when registered,
with the full data context as second argument, an unregistered (or
empty) name leaving the value unchanged; (d) replace the value
placeholder of the format template (when one is present and non-empty)
with the stringified value. -/
def resolveBindingSpec (transforms : TransformReg) (binding : DataBinding)
    (data : DataContext) : JSVal :=
  let raw : Option JSVal :=
    if binding.field = "" then none
    else walkPathSpec (JSVal.obj data) (splitOnChar '.' binding.field.data)
  let value :=
    match raw with
    | none => JSVal.str (binding.fallback.getD "")
    | some v => if isEmptyish v then JSVal.str (binding.fallback.getD "") else v
  let value :=
    match binding.transform with
    | some tname =>
      if tname ≠ "" then
        match transforms tname with
        | some fn => fn value data
        | none => value
      else value
    | none => value
  match binding.formatTemplate with
  | some t =>
    if t ≠ "" then JSVal.str (jsReplaceAll t "\x7b\x7bvalue\x7d\x7d" (jsToString value))
    else value
  | none => value

/-- Spec-side view of the binding applicator: the resolved entries
whose path is exactly the two segments `pfx.<key>`, reduced to their
`key → value` overrides in order. -/
def matchedOverrides (pfx : String) (resolved : List (String × JSVal)) :
    List (String × JSVal) :=
  resolved.filterMap
    (fun pv =>
      match splitOnChar '.' pv.1.data with
      | [p, k] => if p = pfx then some (k, pv.2) else none
      | _ => none)

/-- Apply a list of key/value overrides to a JS object in order. -/
def applyOverrides (m : List (String × JSVal)) (ov : List (String × JSVal)) :
    List (String × JSVal) :=
  ov.foldl (fun acc kv => setKey acc kv.1 kv.2) m

-- ═════════════════════════════════════════════════
--  Concrete fixtures for witnesses and counterexamples
-- ═════════════════════════════════════════════════

/-- A concrete document metadata record. -/
def sampleMeta : TemplateMeta where
  name := "Untitled"
  description := ""
  category := "general"
  tags := []
  author := ""
  createdAt := "2026-01-01"
  updatedAt := "2026-01-01"
  side := .single

/-- A concrete canvas. -/
def sampleCanvas : CanvasSettings where
  width := 600
  height := 380
  unit := .px
  dpi := 300
  layoutMode := .absolute
  gridSize := 5
  snapToGrid := false

/-- A concrete background. -/
def sampleBackground : BackgroundSettings where
  bgType := .solid
  color := "#ffffff"
  opacity := 1

/-- A concrete default layer. -/
def lay0 : Layer where
  id := "l0"
  name := "Layer 1"
  visible := true
  locked := false
  opacity := 1
  order := 0

/-- A second concrete layer with paint order 1. -/
def lay1 : Layer where
  id := "l1"
  name := "Layer 2"
  visible := true
  locked := false
  opacity := 1
  order := 1

/-- A concrete element factory used by the fixtures. -/
def mkElem (id layerId : String) (z : ℤ) : TemplateElement where
  id := id
  elType := .text
  name := id
  layerId := layerId
  position := { x := 0, y := 0 }
  dimensions := { width := 100, height := 40 }
  rotation := 0
  zIndex := z
  style := []
  opacity := 1
  visible := true
  locked := false
  selectable := true
  props := [("content", .str "hello")]

/-- A concrete element. -/
def elemA : TemplateElement := mkElem "A" "l0" 0

/-- A concrete empty document. -/
def sampleDoc : TemplateDocument where
  schemaVersion := 1
  id := "doc0"
  meta := sampleMeta
  canvas := sampleCanvas
  background := sampleBackground
  layers := [lay0]
  elements := []
  bindings := []
  variables' := []
  isReady := true

/-- A concrete reducer state with empty history and future stacks. -/
def state0 : DocumentState where
  document := sampleDoc
  history := []
  future := []

-- ═════════════════════════════════════════════════
--  Helper lemmas
-- ═════════════════════════════════════════════════

/-- Mapping a per-id patch over a list none of whose elements carry the
id is the identity. -/
theorem map_patch_id_of_no_match (l : List TemplateElement) (id : String)
    (f : TemplateElement → TemplateElement)
    (h : ∀ el ∈ l, el.id ≠ id) :
    l.map (fun el => if el.id = id then f el else el) = l := by
  induction l with
  | nil => rfl
  | cons a t ih =>
    have ha := h a (List.mem_cons_self a t)
    simp only [List.map_cons, if_neg ha]
    rw [ih (fun el hel => h el (List.mem_cons_of_mem a hel))]

/-- Filtering out an id that occurs nowhere is the identity. -/
theorem filter_ne_id_of_no_match (l : List TemplateElement) (id : String)
    (h : ∀ el ∈ l, el.id ≠ id) :
    l.filter (fun el => el.id ≠ id) = l := by
  refine List.filter_eq_self.mpr (fun a ha => ?_)
  simpa using h a ha

/-- `slice(-n)` keeps a list that is already within the bound. -/
theorem jsSliceLast_of_le {l : List α} {n : ℕ} (h : l.length ≤ n) :
    jsSliceLast n l = l := by
  unfold jsSliceLast
  rw [Nat.sub_eq_zero_of_le h, List.drop_zero]

-- ═════════════════════════════════════════════════
--  C10 — UPDATE_* without a started gesture is a no-op
-- ═════════════════════════════════════════════════

/-- C10: with no drag gesture in progress (`dragState = null`),
`UPDATE_DRAG` leaves the selection state unchanged; with no resize
gesture in progress (`resizeState = null`), `UPDATE_RESIZE` leaves the
selection state unchanged — an `UPDATE_*` action can never create a
gesture that no `START_*` action began. -/
theorem update_without_start_is_noop (s : SelectionState) :
    (s.dragState = none → ∀ pos, selectionReducer s (.updateDrag pos) = s) ∧
    (s.resizeState = none → ∀ dims, selectionReducer s (.updateResize dims) = s) := by
  constructor
  · intro h pos
    simp [selectionReducer, h]
  · intro h dims
    simp [selectionReducer, h]

/-- A concrete idle selection state. -/
def selState0 : SelectionState where
  selectedIds := []
  hoveredId := none
  dragState := none
  resizeState := none

/-- Witness for C10 at a concrete idle selection state. -/
theorem update_without_start_is_noop_witness :
    selectionReducer selState0 (.updateDrag { x := 5, y := 5 }) = selState0 ∧
    selectionReducer selState0 (.updateResize { width := 50, height := 50 }) = selState0 :=
  ⟨(update_without_start_is_noop selState0).1 rfl _,
   (update_without_start_is_noop selState0).2 rfl _⟩

-- ═════════════════════════════════════════════════
--  C2 — actions on a nonexistent element id
-- ═════════════════════════════════════════════════

/-- C2 counterexample: on a state whose document has no elements at all
(so the id `"ghost"` matches nothing), `UPDATE_ELEMENT` does NOT return
the state unchanged — it pushes a history entry, so the history stack
differs from its previous (empty) value. -/
theorem missing_id_noop_cx :
    state0.document.elements = [] ∧ state0.history = [] ∧
    (documentReducer state0 (.updateElement "ghost" {})).history = [sampleDoc] ∧
    (documentReducer state0 (.updateElement "ghost" {})).history ≠ state0.history := by
  refine ⟨rfl, rfl, rfl, ?_⟩
  simp [state0, documentReducer, pushHistory, jsSliceLast]

/-- C2 (amended): when the id matches no element, `UPDATE_ELEMENT`,
`MOVE_ELEMENT`, `RESIZE_ELEMENT`, `REMOVE_ELEMENT` and
`REORDER_ELEMENT` leave the document unchanged but still push a history
entry (the pre-action document) and clear the future stack — the
reducer returns exactly `pushHistory` of the unchanged document; only
`DUPLICATE_ELEMENT` returns the whole state unchanged. -/
theorem missing_id_actions (s : DocumentState) (id : String)
    (h : ∀ el ∈ s.document.elements, el.id ≠ id) :
    (∀ changes, documentReducer s (.updateElement id changes) = pushHistory s s.document) ∧
    (∀ pos, documentReducer s (.moveElement id pos) = pushHistory s s.document) ∧
    (∀ dims posOpt,
        documentReducer s (.resizeElement id dims posOpt) = pushHistory s s.document) ∧
    documentReducer s (.removeElement id) = pushHistory s s.document ∧
    (∀ z, documentReducer s (.reorderElement id z) = pushHistory s s.document) ∧
    documentReducer s (.duplicateElement id) = s := by
  have hfind : s.document.elements.find? (fun el => el.id = id) = none := by
    refine List.find?_eq_none.mpr (fun a ha => ?_)
    simpa using h a ha
  refine ⟨fun changes => ?_, fun pos => ?_, fun dims posOpt => ?_, ?_, fun z => ?_, ?_⟩
  · show pushHistory s _ = pushHistory s s.document
    rw [map_patch_id_of_no_match _ _ _ h]
  · show pushHistory s _ = pushHistory s s.document
    rw [map_patch_id_of_no_match _ _ _ h]
  · show pushHistory s _ = pushHistory s s.document
    rw [map_patch_id_of_no_match _ _ _ h]
  · show pushHistory s _ = pushHistory s s.document
    rw [filter_ne_id_of_no_match _ _ h]
  · show pushHistory s _ = pushHistory s s.document
    rw [map_patch_id_of_no_match _ _ _ h]
  · simp [documentReducer, hfind]

/-- Witness for the amended C2 at the concrete empty-document state. -/
theorem missing_id_actions_witness :
    documentReducer state0 (.moveElement "ghost" { x := 1, y := 2 }) =
      pushHistory state0 state0.document ∧
    documentReducer state0 (.duplicateElement "ghost") = state0 :=
  ⟨(missing_id_actions state0 "ghost" (by simp [state0, sampleDoc])).2.1 _,
   (missing_id_actions state0 "ghost" (by simp [state0, sampleDoc])).2.2.2.2.2⟩

-- ═════════════════════════════════════════════════
--  C3 — history cap
-- ═════════════════════════════════════════════════

/-- A concrete state whose history stack already holds 50 snapshots. -/
def state50 : DocumentState where
  document := sampleDoc
  history := List.replicate 50 sampleDoc
  future := []

/-- C3 evaluation at the failing input: from a history of 50 entries, a
history-pushing action produces a history of 51 entries —
`[...history.slice(-50), document]` keeps the last 50 entries and then
appends one more, so the stack exceeds the documented cap of 50. -/
theorem history_cap_exceeded :
    state50.history.length = 50 ∧
    (documentReducer state50 (.addElement elemA)).history.length = 51 := by
  constructor
  · simp [state50]
  · simp [state50, documentReducer, pushHistory, jsSliceLast]

-- ═════════════════════════════════════════════════
--  History machinery (for C1 and C9)
-- ═════════════════════════════════════════════════

/-- A committed action's result is `pushHistory` of some new document. -/
theorem commits_pushHistory (s : DocumentState) (a : EngineAction)
    (h : commits s a = true) :
    ∃ d, documentReducer s a = pushHistory s d := by
  cases a with
  | updateElement id changes => exact ⟨_, rfl⟩
  | moveElement id pos => exact ⟨_, rfl⟩
  | resizeElement id dims posOpt => exact ⟨_, rfl⟩
  | addElement payload => exact ⟨_, rfl⟩
  | removeElement id => exact ⟨_, rfl⟩
  | duplicateElement id =>
    rw [commits, Option.isSome_iff_exists] at h
    obtain ⟨orig, horig⟩ := h
    exact ⟨_, by rw [documentReducer, horig]⟩
  | reorderElement id z => exact ⟨_, rfl⟩
  | setBackground changes => exact ⟨_, rfl⟩
  | updateLayer id changes => exact ⟨_, rfl⟩
  | setVariable name v => exact ⟨_, rfl⟩
  | setDocument payload => simp [commits] at h
  | selectElements ids => simp [commits] at h
  | hoverElement id => simp [commits] at h
  | startDrag p => simp [commits] at h
  | updateDrag p => simp [commits] at h
  | endDrag => simp [commits] at h
  | startResize p => simp [commits] at h
  | updateResize p => simp [commits] at h
  | endResize => simp [commits] at h
  | undo => simp [commits] at h
  | redo => simp [commits] at h
  | batch acts => simp [commits] at h

/-- Unfolding one step of `undoN` at the outside. -/
theorem undoN_succ (n : ℕ) (s : DocumentState) :
    undoN (n + 1) s = documentReducer (undoN n s) .undo := by
  unfold undoN
  rw [Function.iterate_succ_apply']

/-- Core induction for the undo round trip: along a committed action
sequence that stays within the history cap, the history grows by one
snapshot per action, and that many `UNDO`s restore both the document
and the history stack. -/
theorem applyActions_undo (acts : List EngineAction) :
    ∀ s : DocumentState, allCommit s acts = true →
      s.history.length + acts.length ≤ 50 →
      (applyActions s acts).history.length = s.history.length + acts.length ∧
      (undoN acts.length (applyActions s acts)).document = s.document ∧
      (undoN acts.length (applyActions s acts)).history = s.history := by
  induction acts with
  | nil =>
    intro s _ _
    exact ⟨by simp [applyActions], rfl, rfl⟩
  | cons a rest ih =>
    intro s hall hcap
    rw [allCommit, Bool.and_eq_true] at hall
    obtain ⟨d, hd⟩ := commits_pushHistory s a hall.1
    have hsl : jsSliceLast 50 s.history = s.history :=
      jsSliceLast_of_le (by simp at hcap; omega)
    have h1hist : (documentReducer s a).history = s.history ++ [s.document] := by
      rw [hd, pushHistory, hsl]
    have h1len : (documentReducer s a).history.length = s.history.length + 1 := by
      rw [h1hist]; simp
    have hcap1 : (documentReducer s a).history.length + rest.length ≤ 50 := by
      rw [h1len]; simp at hcap ⊢; omega
    have happ : applyActions s (a :: rest) = applyActions (documentReducer s a) rest := rfl
    obtain ⟨ihlen, ihdoc, ihhist⟩ := ih (documentReducer s a) hall.2 hcap1
    have hlast : (undoN rest.length
        (applyActions (documentReducer s a) rest)).history.getLast? = some s.document := by
      rw [ihhist, h1hist]
      exact List.getLast?_concat _
    have hlen' : (a :: rest).length = rest.length + 1 := by simp
    refine ⟨?_, ?_, ?_⟩
    · rw [happ, ihlen, h1len, hlen']
      omega
    · rw [happ, hlen', undoN_succ]
      simp only [documentReducer, hlast]
    · rw [happ, hlen', undoN_succ]
      simp only [documentReducer, hlast]
      rw [ihhist, h1hist, List.dropLast_concat]

-- ═════════════════════════════════════════════════
--  C1 — undo/redo round trip
-- ═════════════════════════════════════════════════

/-- C1: (1) from a state with empty history and future stacks, after
any sequence of at most 50 committed (history-pushing) actions, that
many sequential `UNDO`s restore the original document; (2) after one
`UNDO`, one `REDO` restores the document that was current before the
`UNDO` (stated for any state whose future stack is empty whenever its
history is — which every state reached in (1) satisfies); (3) any
committed action empties the future stack, so a subsequent `REDO` is a
no-op. -/
theorem undo_redo_round_trip :
    (∀ (s0 : DocumentState) (acts : List EngineAction),
        s0.history = [] → s0.future = [] → acts.length ≤ 50 →
        allCommit s0 acts = true →
        (undoN acts.length (applyActions s0 acts)).document = s0.document) ∧
    (∀ s : DocumentState, (s.history = [] → s.future = []) →
        (documentReducer (documentReducer s .undo) .redo).document = s.document) ∧
    (∀ (s : DocumentState) (a : EngineAction), commits s a = true →
        (documentReducer s a).future = [] ∧
        documentReducer (documentReducer s a) .redo = documentReducer s a) := by
  refine ⟨?_, ?_, ?_⟩
  · intro s0 acts h0 _ hlen hall
    exact (applyActions_undo acts s0 hall (by rw [h0]; simpa using hlen)).2.1
  · intro s h
    cases hh : s.history.getLast? with
    | none =>
      have hnil : s.history = [] := List.getLast?_eq_none_iff.mp hh
      have hfut : s.future = [] := h hnil
      simp [documentReducer, hh, hfut]
    | some prev =>
      simp [documentReducer, hh]
  · intro s a h
    obtain ⟨d, hd⟩ := commits_pushHistory s a h
    constructor
    · rw [hd]; rfl
    · rw [hd]
      rfl

/-- Witness for C1 at concrete inputs: one committed `ADD_ELEMENT` then
one `UNDO` restores the empty document; `REDO` after `UNDO` restores
the document at the concrete initial state; a committed action's future
stack is empty. -/
theorem undo_redo_round_trip_witness :
    (undoN 1 (applyActions state0 [.addElement elemA])).document = state0.document ∧
    (documentReducer (documentReducer state0 .undo) .redo).document = state0.document ∧
    (documentReducer state0 (.addElement elemA)).future = [] := by
  refine ⟨?_, ?_, ?_⟩
  · have := undo_redo_round_trip.1 state0 [.addElement elemA] rfl rfl (by decide) rfl
    simpa using this
  · exact undo_redo_round_trip.2.1 state0 (fun _ => rfl)
  · exact (undo_redo_round_trip.2.2 state0 (.addElement elemA) rfl).1

-- ═════════════════════════════════════════════════
--  C9 — BATCH is a sequential fold
-- ═════════════════════════════════════════════════

/-- The `BATCH` loop equals a left fold of the reducer. -/
theorem documentReducerBatch_eq_foldl (acts : List EngineAction) :
    ∀ s : DocumentState, documentReducerBatch s acts = acts.foldl documentReducer s := by
  induction acts with
  | nil => intro s; rfl
  | cons a rest ih =>
    intro s
    rw [documentReducerBatch, List.foldl_cons, ih]

/-- C9: dispatching `BATCH(actions)` is exactly the left-to-right fold
of the constituent actions through the reducer; consequently a batch of
committed actions (within the history cap) adds one history entry per
constituent action. -/
theorem batch_is_sequential_fold :
    (∀ (s : DocumentState) (acts : List EngineAction),
        documentReducer s (.batch acts) = acts.foldl documentReducer s) ∧
    (∀ (s : DocumentState) (acts : List EngineAction),
        allCommit s acts = true → s.history.length + acts.length ≤ 50 →
        (documentReducer s (.batch acts)).history.length
          = s.history.length + acts.length) := by
  constructor
  · intro s acts
    rw [documentReducer]
    exact documentReducerBatch_eq_foldl acts s
  · intro s acts hall hcap
    rw [documentReducer, documentReducerBatch_eq_foldl acts s]
    exact (applyActions_undo acts s hall hcap).1

/-- Witness for C9 at a concrete two-action batch. -/
theorem batch_is_sequential_fold_witness :
    documentReducer state0 (.batch [.addElement elemA, .removeElement "A"])
      = [EngineAction.addElement elemA,
         EngineAction.removeElement "A"].foldl documentReducer state0 ∧
    (documentReducer state0
        (.batch [.addElement elemA, .removeElement "A"])).history.length = 2 := by
  constructor
  · exact batch_is_sequential_fold.1 state0 _
  · have := batch_is_sequential_fold.2 state0
      [.addElement elemA, .removeElement "A"] rfl (by decide)
    simpa using this

-- ═════════════════════════════════════════════════
--  C4 — binding resolution pipeline conformance
-- ═════════════════════════════════════════════════

/-- Once the walk has collapsed to `undefined` it stays there. -/
theorem foldl_walkStep_undef (ks : List String) :
    ks.foldl walkStep .undefinedV = .undefinedV := by
  induction ks with
  | nil => rfl
  | cons k rest ih => simpa [walkStep] using ih

/-- The code's reduce-based walk agrees with the spec-side walker:
`undefined` exactly when the spec walker reports "unresolved". -/
theorem foldl_walkStep_eq_walkPathSpec (ks : List String) :
    ∀ v : JSVal, ks.foldl walkStep v = (walkPathSpec v ks).getD .undefinedV := by
  induction ks with
  | nil => intro v; rfl
  | cons k rest ih =>
    intro v
    cases v with
    | undefinedV => simpa [walkStep, walkPathSpec] using foldl_walkStep_undef rest
    | null => simpa [walkStep, walkPathSpec] using foldl_walkStep_undef rest
    | bool b => simpa [walkStep, getMember, walkPathSpec] using foldl_walkStep_undef rest
    | num q => simpa [walkStep, getMember, walkPathSpec] using foldl_walkStep_undef rest
    | str s => simpa [walkStep, getMember, walkPathSpec] using foldl_walkStep_undef rest
    | obj fields =>
      cases hl : fields.lookup k with
      | none =>
        simpa [walkStep, getMember, walkPathSpec, hl] using foldl_walkStep_undef rest
      | some w =>
        simpa [walkStep, getMember, walkPathSpec, hl] using ih w
    | arr items =>
      cases hn : k.toNat? with
      | none =>
        simpa [walkStep, getMember, walkPathSpec, hn] using foldl_walkStep_undef rest
      | some i =>
        by_cases hc : toString i = k
        · cases hg : items[i]? with
          | none =>
            simpa [walkStep, getMember, walkPathSpec, hn, hc, List.get?_eq_getElem?, hg]
              using foldl_walkStep_undef rest
          | some w =>
            simpa [walkStep, getMember, walkPathSpec, hn, hc, List.get?_eq_getElem?, hg]
              using ih w
        · simpa [walkStep, getMember, walkPathSpec, hn, hc] using foldl_walkStep_undef rest

/-- The fallback stage of the code equals the spec's unresolved/empty
case analysis. -/
theorem fallbackStage_eq (binding : DataBinding) (data : DataContext) :
    (if isEmptyish (getNestedValue (JSVal.obj data) binding.field) then
        JSVal.str (binding.fallback.getD "")
      else getNestedValue (JSVal.obj data) binding.field)
      = (match (if binding.field = "" then none
                else walkPathSpec (JSVal.obj data) (splitOnChar '.' binding.field.data)) with
         | none => JSVal.str (binding.fallback.getD "")
         | some v => if isEmptyish v then JSVal.str (binding.fallback.getD "") else v) := by
  by_cases hf : binding.field = ""
  · simp [getNestedValue, hf, isEmptyish]
  · simp only [getNestedValue, if_neg hf]
    rw [foldl_walkStep_eq_walkPathSpec]
    cases hw : walkPathSpec (JSVal.obj data) (splitOnChar '.' binding.field.data) with
    | none => simp [isEmptyish]
    | some v => simp

/-- The truthiness-guarded transform stage equals the spec's
option-and-registration case analysis. -/
theorem transformStage_eq (transforms : TransformReg) (binding : DataBinding)
    (data : DataContext) (value : JSVal) :
    (if optStrTruthy binding.transform then
        match transforms (binding.transform.getD "") with
        | some fn => fn value data
        | none => value
      else value)
      = (match binding.transform with
         | some tname =>
           if tname ≠ "" then
             match transforms tname with
             | some fn => fn value data
             | none => value
           else value
         | none => value) := by
  cases binding.transform with
  | none => simp [optStrTruthy]
  | some tname =>
    by_cases ht : tname = "" <;> simp [optStrTruthy, ht]

/-- The truthiness-guarded format stage equals the spec's
option case analysis. -/
theorem formatStage_eq (binding : DataBinding) (value : JSVal) :
    (if optStrTruthy binding.formatTemplate then
        JSVal.str (jsReplaceAll (binding.formatTemplate.getD "")
          "\x7b\x7bvalue\x7d\x7d" (jsToString value))
      else value)
      = (match binding.formatTemplate with
         | some t =>
           if t ≠ "" then
             JSVal.str (jsReplaceAll t "\x7b\x7bvalue\x7d\x7d" (jsToString value))
           else value
         | none => value) := by
  cases binding.formatTemplate with
  | none => simp [optStrTruthy]
  | some t =>
    by_cases ht : t = "" <;> simp [optStrTruthy, ht]

/-- C4: `resolveBinding` applies exactly the spec's steps in the spec's
order — dot-path walk with unresolved for missing keys, fallback
substitution on unresolved/null/undefined/empty (defaulting to the
empty string), registered-transform application on the
fallback-substituted value with the full data context as second
argument (unregistered names leaving the value unchanged), then format
template interpolation of the stringified value. In particular a
missing field with fallback "X" resolves to "X", and the template
"ID: \x7b\x7bvalue\x7d\x7d" with resolved value "42" yields "ID: 42". -/
theorem resolveBinding_conformance :
    (∀ (transforms : TransformReg) (binding : DataBinding) (data : DataContext),
        resolveBinding transforms binding data
          = resolveBindingSpec transforms binding data) ∧
    resolveBinding emptyReg { field := "employee.missing", fallback := some "X" } []
      = .str "X" ∧
    resolveBinding emptyReg
        { field := "id", formatTemplate := some "ID: \x7b\x7bvalue\x7d\x7d" }
        [("id", .str "42")]
      = .str "ID: 42" := by
  refine ⟨?_, rfl, rfl⟩
  intro transforms binding data
  show (if optStrTruthy binding.formatTemplate then
          JSVal.str (jsReplaceAll (binding.formatTemplate.getD "")
            "\x7b\x7bvalue\x7d\x7d" (jsToString _))
        else _) = resolveBindingSpec transforms binding data
  rw [resolveBindingSpec]
  rw [fallbackStage_eq, transformStage_eq, formatStage_eq]

-- ═════════════════════════════════════════════════
--  C8 — conditional-visibility operator semantics
-- ═════════════════════════════════════════════════

/-- Evaluating the numeric coercion of the string `"5"`. -/
theorem jsToNumber_str_five : jsToNumber (JSVal.str "5") = some 5 := by
  show some ((1 : ℚ) * ((5 : ℕ) : ℚ)) = some 5
  norm_num

/-- C8: `evaluateCondition` implements exactly the specified operator
semantics — `exists`/`notExists` test for (not) null/undefined/empty,
`equals`/`notEquals` use strict equality against the literal comparison
value, `gt`/`lt` coerce both sides to numbers (`NaN` comparing false),
`contains` coerces both sides to strings and tests substring
containment, and any unknown operator yields `true` (fail-open). The
spec's two examples are instances: `gt` on field value `"5"` against
`3` is `true`, and `contains` on `"hello world"` against `"wor"` is
`true`. -/
theorem evaluateCondition_semantics :
    (∀ (c : ConditionalVisibility) (data : DataContext),
        (c.operator = "exists" →
          evaluateCondition c data
            = !isEmptyish (getNestedValue (JSVal.obj data) c.field)) ∧
        (c.operator = "notExists" →
          evaluateCondition c data
            = isEmptyish (getNestedValue (JSVal.obj data) c.field)) ∧
        (c.operator = "equals" →
          evaluateCondition c data
            = jsStrictEq (getNestedValue (JSVal.obj data) c.field) c.value) ∧
        (c.operator = "notEquals" →
          evaluateCondition c data
            = !jsStrictEq (getNestedValue (JSVal.obj data) c.field) c.value) ∧
        (c.operator = "gt" →
          evaluateCondition c data
            = match jsToNumber (getNestedValue (JSVal.obj data) c.field),
                    jsToNumber c.value with
              | some a, some b => decide (a > b)
              | _, _ => false) ∧
        (c.operator = "lt" →
          evaluateCondition c data
            = match jsToNumber (getNestedValue (JSVal.obj data) c.field),
                    jsToNumber c.value with
              | some a, some b => decide (a < b)
              | _, _ => false) ∧
        (c.operator = "contains" →
          evaluateCondition c data
            = jsIncludes (jsToString (getNestedValue (JSVal.obj data) c.field))
                (jsToString c.value)) ∧
        (c.operator ∉ (["equals", "notEquals", "exists", "notExists",
                        "gt", "lt", "contains"] : List String) →
          evaluateCondition c data = true)) ∧
    evaluateCondition { field := "n", operator := "gt", value := .num 3 }
      [("n", .str "5")] = true ∧
    evaluateCondition { field := "s", operator := "contains", value := .str "wor" }
      [("s", .str "hello world")] = true := by
  refine ⟨?_, ?_, by rfl⟩
  · intro c data
    refine ⟨?_, ?_, ?_, ?_, ?_, ?_, ?_, ?_⟩
    · intro h; unfold evaluateCondition; rw [h]; rfl
    · intro h; unfold evaluateCondition; rw [h]; rfl
    · intro h; unfold evaluateCondition; rw [h]; rfl
    · intro h; unfold evaluateCondition; rw [h]; rfl
    · intro h; unfold evaluateCondition; rw [h]; rfl
    · intro h; unfold evaluateCondition; rw [h]; rfl
    · intro h; unfold evaluateCondition; rw [h]; rfl
    · intro h
      simp only [List.mem_cons, List.mem_singleton, not_or, List.not_mem_nil,
        not_false_iff, and_true] at h
      unfold evaluateCondition
      split <;> simp_all
  · show (match jsToNumber (JSVal.str "5"), jsToNumber (JSVal.num 3) with
          | some a, some b => decide (a > b)
          | _, _ => false) = true
    rw [jsToNumber_str_five]
    show decide ((5 : ℚ) > 3) = true
    decide

/-- Witness for C8 at concrete inputs: the `exists` clause and the
unknown-operator clause, instantiated. -/
theorem evaluateCondition_semantics_witness :
    evaluateCondition { field := "n", operator := "exists" } [("n", .str "5")]
      = !isEmptyish (getNestedValue (JSVal.obj [("n", .str "5")]) "n") ∧
    evaluateCondition { field := "n", operator := "startsWith" } [] = true :=
  ⟨(evaluateCondition_semantics.1 { field := "n", operator := "exists" }
      [("n", .str "5")]).1 rfl,
   (evaluateCondition_semantics.1 { field := "n", operator := "startsWith" }
      []).2.2.2.2.2.2.2 (by decide)⟩

-- ═════════════════════════════════════════════════
--  C7 — binding application: frame and exactness
-- ═════════════════════════════════════════════════

/-- The binding-application fold rewrites exactly the `props` and
`style` objects, by the matching two-segment entries in order, and
nothing else. -/
theorem foldl_applyOneBinding (l : List (String × JSVal)) :
    ∀ el : TemplateElement,
      l.foldl (fun e pv => applyOneBinding e pv.1 pv.2) el
        = { el with
            props := applyOverrides el.props (matchedOverrides "props" l)
            style := applyOverrides el.style (matchedOverrides "style" l) } := by
  induction l with
  | nil => intro el; rfl
  | cons pv rest ih =>
    intro el
    rcases pv with ⟨p, v⟩
    rw [List.foldl_cons]
    rcases hsp : splitOnChar '.' p.data with _ | ⟨q, _ | ⟨k, _ | ⟨k2, t⟩⟩⟩
    · rw [show applyOneBinding el p v = el by rw [applyOneBinding, hsp], ih el]
      simp [matchedOverrides, List.filterMap_cons, hsp]
    · rw [show applyOneBinding el p v = el by rw [applyOneBinding, hsp], ih el]
      simp [matchedOverrides, List.filterMap_cons, hsp]
    · by_cases hq : q = "props"
      · subst hq
        rw [show applyOneBinding el p v = { el with props := setKey el.props k v } by
              rw [applyOneBinding, hsp]; rfl,
           ih _]
        simp [matchedOverrides, List.filterMap_cons, hsp, applyOverrides]
      · by_cases hs : q = "style"
        · subst hs
          rw [show applyOneBinding el p v = { el with style := setKey el.style k v } by
                rw [applyOneBinding, hsp]; simp,
             ih _]
          simp [matchedOverrides, List.filterMap_cons, hsp, applyOverrides, hq]
        · rw [show applyOneBinding el p v = el by rw [applyOneBinding, hsp]; simp [hq, hs],
             ih el]
          simp [matchedOverrides, List.filterMap_cons, hsp, hq, hs]
    · rw [show applyOneBinding el p v = el by rw [applyOneBinding, hsp], ih el]
      simp [matchedOverrides, List.filterMap_cons, hsp]

/-- C7: `applyBindingsToElement` returns a new element in which exactly
the resolved entries with a two-segment `props.<key>` or `style.<key>`
path override the `props`/`style` objects (in entry order), while every
other field of the element — and hence the input element itself, the
embedding being pure value semantics — is unchanged; entries with any
other path shape have no effect. -/
theorem applyBindings_exact (transforms : TransformReg) (el : TemplateElement)
    (data : DataContext) :
    applyBindingsToElement transforms el data
      = { el with
          props := applyOverrides el.props
            (matchedOverrides "props" (resolveElementBindings transforms el data))
          style := applyOverrides el.style
            (matchedOverrides "style" (resolveElementBindings transforms el data)) } := by
  obtain ⟨eid, ety, enm, elid, epos, edim, erot, ez, est, eop, evis,
    ebind, econd, elock, esel, eprops, epar, ech⟩ := el
  rw [applyBindingsToElement, resolveElementBindings]
  cases ebind with
  | none => rfl
  | some bs =>
    cases bs with
    | nil => rfl
    | cons b rest =>
      simp only [List.length_cons, Nat.succ_ne_zero, if_false]
      exact foldl_applyOneBinding _ _

-- ═════════════════════════════════════════════════
--  C5 — layer order dominance in paint ordering
-- ═════════════════════════════════════════════════

/-- An element on the order-0 layer with zIndex 999. -/
def elemZA : TemplateElement := mkElem "A" "l0" 999

/-- An element on the order-1 layer with zIndex −999. -/
def elemZB : TemplateElement := mkElem "B" "l1" (-999)

/-- C5 counterexample: element A sits on the lower-order layer (0 < 1)
and both zIndex magnitudes are below 1000, yet `getOrderedElements`
paints B (key 1·1000 − 999 = 1) before A (key 0·1000 + 999 = 999) —
with negative zIndex, layer order does not dominate. -/
theorem layer_order_dominates_cx :
    resolvedOrder [lay0, lay1] elemZA < resolvedOrder [lay0, lay1] elemZB ∧
    elemZA.zIndex.natAbs < 1000 ∧ elemZB.zIndex.natAbs < 1000 ∧
    (getOrderedElements [elemZA, elemZB] [lay0, lay1] []).map (fun el => el.id)
      = ["B", "A"] := by
  exact ⟨by decide, by decide, by decide, rfl⟩

/-- C5 (amended): in the output of `getOrderedElements`, of two
retained elements whose resolved layers have different order values and
whose zIndex values are non-negative and below 1000, the element on the
lower-order layer comes first; an unresolvable layer reference counts
as order 0, and ordering is by the ascending composite key
`layer.order × 1000 + element.zIndex`. -/
theorem layer_order_dominates (elements : List TemplateElement) (layers : List Layer)
    (data : DataContext) (i j : ℕ)
    (hi : i < (getOrderedElements elements layers data).length)
    (hj : j < (getOrderedElements elements layers data).length)
    (horder : resolvedOrder layers ((getOrderedElements elements layers data).get ⟨i, hi⟩)
        < resolvedOrder layers ((getOrderedElements elements layers data).get ⟨j, hj⟩))
    (hzi0 : 0 ≤ ((getOrderedElements elements layers data).get ⟨i, hi⟩).zIndex)
    (hzi1 : ((getOrderedElements elements layers data).get ⟨i, hi⟩).zIndex < 1000)
    (hzj0 : 0 ≤ ((getOrderedElements elements layers data).get ⟨j, hj⟩).zIndex)
    (hzj1 : ((getOrderedElements elements layers data).get ⟨j, hj⟩).zIndex < 1000) :
    i < j := by
  haveI hTot : IsTotal TemplateElement
      (fun a b => compositeKey layers a ≤ compositeKey layers b) :=
    ⟨fun a b => le_total _ _⟩
  haveI hTrans : IsTrans TemplateElement
      (fun a b => compositeKey layers a ≤ compositeKey layers b) :=
    ⟨fun a b c hab hbc => le_trans hab hbc⟩
  have hsorted : (getOrderedElements elements layers data).Sorted
      (fun a b => compositeKey layers a ≤ compositeKey layers b) := by
    unfold getOrderedElements
    exact List.sorted_insertionSort _ _
  have hkey : compositeKey layers ((getOrderedElements elements layers data).get ⟨i, hi⟩)
      < compositeKey layers ((getOrderedElements elements layers data).get ⟨j, hj⟩) := by
    unfold compositeKey
    have h1 : resolvedOrder layers ((getOrderedElements elements layers data).get ⟨i, hi⟩) + 1
        ≤ resolvedOrder layers ((getOrderedElements elements layers data).get ⟨j, hj⟩) :=
      Int.add_one_le_iff.mpr horder
    nlinarith [h1, hzi0, hzi1, hzj0, hzj1]
  rcases lt_trichotomy i j with h | h | h
  · exact h
  · exfalso
    subst h
    exact absurd rfl (ne_of_lt horder).symm.symm
  · exfalso
    have := hsorted.rel_get_of_lt (show (⟨j, hj⟩ : Fin _) < ⟨i, hi⟩ from h)
    exact absurd hkey (not_lt.mpr this)

/-- Witness for the amended C5 at two concrete elements on layers of
order 0 and 1 with in-range zIndex: the lower-order element's output
position precedes the other's. -/
theorem layer_order_dominates_witness : (0 : ℕ) < 1 :=
  layer_order_dominates [mkElem "W1" "l1" 5, mkElem "W0" "l0" 0] [lay0, lay1] [] 0 1
    (by decide) (by decide) (by decide) (by decide) (by decide) (by decide) (by decide)

-- ═════════════════════════════════════════════════
--  C6 — resize gesture: floor and aspect lock
-- ═════════════════════════════════════════════════

/-- Resize start: 1000×10 element, right handle, aspect lock on. -/
def rsCx : ResizeStartRef where
  handle := .right
  mouseX := 0
  mouseY := 0
  elX := 0
  elY := 0
  elW := 1000
  elH := 10
  aspectLock := true

/-- Resize start: the spec's 100×50 aspect-lock example. -/
def rsEx : ResizeStartRef where
  handle := .right
  mouseX := 0
  mouseY := 0
  elX := 0
  elY := 0
  elW := 100
  elH := 50
  aspectLock := true

/-- Resize start: 100×50 element, bottom-right handle, no aspect lock. -/
def rsW : ResizeStartRef where
  handle := .bottomRight
  mouseX := 0
  mouseY := 0
  elX := 0
  elY := 0
  elW := 100
  elH := 50
  aspectLock := false

/-- Engine config at scale 1 with snapping off. -/
def cfgEx : EngineConfig where
  mode := .preview
  scale := 1
  snapToGrid := false
  gridSize := 5
  showHandles := true
  showGrid := false
  enableKeyboard := true
  updateDebounce := 16

/-- C6 counterexample: a 1000×10 element (both dimensions ≥ 10) with
aspect lock, right handle dragged by −990: the width clamps to the
10 floor but the aspect-derived height becomes 10 / 100 = 1/10 < 10 —
the committed height violates the 10-unit floor. -/
theorem resize_floor_cx :
    resizeDims rsCx cfgEx (-990) 0 = (10, 1 / 10) ∧ ¬ (10 : ℚ) ≤ 1 / 10 := by
  have h1 : jsIncludes (handleName ResizeHandle.right) "right" = true := rfl
  have h2 : jsIncludes (handleName ResizeHandle.right) "left" = false := rfl
  have h3 : jsIncludes (handleName ResizeHandle.right) "bottom" = false := rfl
  have h4 : jsIncludes (handleName ResizeHandle.right) "top" = false := rfl
  constructor
  · unfold resizeDims rsCx cfgEx
    norm_num [h1, h2, h3, h4, snapDim, max_def]
  · norm_num

/-- C6 (amended): for any resize gesture from start dimensions ≥ 10 at
positive scale, (1) with aspect lock off and snapping off the committed
width and height respect the 10-unit floor even for large negative
deltas; (2) with aspect lock on and snapping off, the dominant pointer
axis drives the other dimension via the original width/height ratio —
when |dx| > |dy| the height is derived from the width by the
height/width ratio while the width still respects the floor, otherwise
the width is derived from the height by the width/height ratio while
the height still respects the floor (the derived dimension is not
re-clamped and may drop below the floor); and the spec's example —
100×50, aspect lock, right handle dragged +20 with |dx|>|dy| — commits
120×60. Grid snapping, when enabled, applies after the aspect
correction. -/
theorem resize_semantics :
    (∀ (rs : ResizeStartRef) (config : EngineConfig) (clientX clientY : ℚ),
        0 < config.scale → 10 ≤ rs.elW → 10 ≤ rs.elH →
        ((rs.aspectLock = false → config.snapToGrid = false →
           10 ≤ (resizeDims rs config clientX clientY).1 ∧
           10 ≤ (resizeDims rs config clientX clientY).2) ∧
         (rs.aspectLock = true → config.snapToGrid = false →
           |(clientX - rs.mouseX) / config.scale|
             > |(clientY - rs.mouseY) / config.scale| →
           (resizeDims rs config clientX clientY).2
             = (resizeDims rs config clientX clientY).1 * rs.elH / rs.elW ∧
           10 ≤ (resizeDims rs config clientX clientY).1) ∧
         (rs.aspectLock = true → config.snapToGrid = false →
           |(clientX - rs.mouseX) / config.scale|
             ≤ |(clientY - rs.mouseY) / config.scale| →
           (resizeDims rs config clientX clientY).1
             = (resizeDims rs config clientX clientY).2 * rs.elW / rs.elH ∧
           10 ≤ (resizeDims rs config clientX clientY).2))) ∧
    resizeDims rsEx cfgEx 20 0 = (120, 60) := by
  constructor
  · intro rs config clientX clientY hs hw hh
    refine ⟨?_, ?_, ?_⟩
    · intro ha hsnap
      unfold resizeDims
      simp only [ha, if_false, Bool.false_eq_true, snapDim, hsnap, false_and]
      constructor <;> split_ifs <;>
        first
          | exact le_max_left _ _
          | exact hw
          | exact hh
    · intro ha hsnap hdom
      unfold resizeDims
      simp only [ha, if_true, snapDim, hsnap, Bool.false_eq_true, false_and,
        if_false, if_pos hdom]
      constructor
      · rw [div_div_eq_mul_div]
      · split_ifs <;>
          first
            | exact le_max_left _ _
            | exact hw
    · intro ha hsnap hdom
      unfold resizeDims
      simp only [ha, if_true, snapDim, hsnap, Bool.false_eq_true, false_and,
        if_false, if_neg (not_lt.mpr hdom)]
      constructor
      · rw [mul_div_assoc]
      · split_ifs <;>
          first
            | exact le_max_left _ _
            | exact hh
  · have h1 : jsIncludes (handleName ResizeHandle.right) "right" = true := rfl
    have h2 : jsIncludes (handleName ResizeHandle.right) "left" = false := rfl
    have h3 : jsIncludes (handleName ResizeHandle.right) "bottom" = false := rfl
    have h4 : jsIncludes (handleName ResizeHandle.right) "top" = false := rfl
    unfold resizeDims rsEx cfgEx
    norm_num [h1, h2, h3, h4, snapDim, max_def]

/-- Resize start: 100×50 element, bottom handle, aspect lock on. -/
def rsV : ResizeStartRef where
  handle := .bottom
  mouseX := 0
  mouseY := 0
  elX := 0
  elY := 0
  elW := 100
  elH := 50
  aspectLock := true

/-- Witness for the amended C6: a bottom-right resize of a 100×50
element by (−500, −500) without aspect lock or snapping still commits
dimensions at the 10-unit floor; and a vertically-dominant aspect-lock
resize of the 100×50 element derives the width from the height by the
original width/height ratio with the height still at or above the
floor. -/
theorem resize_semantics_witness :
    (10 ≤ (resizeDims rsW cfgEx (-500) (-500)).1 ∧
     10 ≤ (resizeDims rsW cfgEx (-500) (-500)).2) ∧
    ((resizeDims rsV cfgEx 0 20).1
        = (resizeDims rsV cfgEx 0 20).2 * rsV.elW / rsV.elH ∧
     10 ≤ (resizeDims rsV cfgEx 0 20).2) :=
  ⟨(resize_semantics.1 rsW cfgEx (-500) (-500)
      (by norm_num [cfgEx]) (by norm_num [rsW]) (by norm_num [rsW])).1 rfl rfl,
   (resize_semantics.1 rsV cfgEx 0 20
      (by norm_num [cfgEx]) (by norm_num [rsV]) (by norm_num [rsV])).2.2 rfl rfl
      (by norm_num [rsV, cfgEx])⟩
